import Mathlib

/-!
Verification of the solarcalc global solar radiation estimator
(solarcalc.py).  The program predicts hourly global solar radiation on a
horizontal surface from daily temperature extremes and precipitation.

Modelling conventions used throughout this development:

* Python/numpy floating point values are idealised as rational or real
  numbers.  Where IEEE NaN behaviour matters (missing climate readings,
  the zero-longitude modulus, out-of-domain arccos), values are modelled
  as `Option ℚ` (`QF`) or `Option ℝ` (`NR`) with `none` playing the role
  of NaN: arithmetic propagates `none`, ordered comparisons against
  `none` are false, exactly as IEEE comparisons with NaN are false.
* Division by zero is mapped to `none` (numpy emits inf/NaN there; no
  claim depends on distinguishing the two, and every such value is
  discarded or zero-filled downstream, as in the program).
* `np.round(x, 2)` is modelled as `round (x * 100) / 100`; numpy breaks
  exact half-cent ties to even while `round` breaks them up, which no
  claim observes (only the sign and the zero-preservation of rounding
  are used).
-/

/-- NaN-aware rational climate values: `none` models the IEEE NaN
produced by a missing/undefined daily reading. -/
abbrev QF := Option ℚ

/-- NaN-propagating subtraction on daily climate values. -/
def qfSub : QF → QF → QF
  | some x, some y => some (x - y)
  | _, _ => none

/-- NaN-propagating absolute value (`pandas.Series.abs`). -/
def qfAbs : QF → QF
  | some x => some |x|
  | none => none

/-- The strict comparison `ptot_mm > 1` of solarcalc.py line 244 used to
derive the daily rain flag; false when the reading is NaN, as the numpy
comparison is. -/
def qfRainFlag : QF → Bool
  | some p => decide (1 < p)
  | none => false

/-- Daily rain flags: `rain = (climate_data['ptot_mm'] > 1)`
(solarcalc.py line 244). -/
def rainList (ptot : List QF) : List Bool := ptot.map qfRainFlag

/-- Daily temperature swing
`deltaT = (tamax_degC - tamin_degC).abs()` (solarcalc.py lines 245-246). -/
def deltaTList (tamax tamin : List QF) : List QF :=
  (List.zipWith qfSub tamax tamin).map qfAbs

/-- Rules 1-4 of the atmospheric transmittance estimate for day `i`
(solarcalc.py lines 276-289): clear sky 0.70, overcast 0.40 when it
rains, denser cloud 0.30 on the second consecutive rain day, pre-rain
0.60 when the next day is rainy. -/
def tauBase (rain : List Bool) (i : ℕ) : ℚ :=
  let tau1 := if rain.getD i false = true then 2/5 else 7/10
  let tau2 := if 0 < i ∧ rain.getD i false = true ∧ rain.getD (i-1) false = true
    then 3/10 else tau1
  if i < rain.length - 1 ∧ rain.getD i false = false ∧ rain.getD (i+1) false = true
    then 3/5 else tau2

/-- The full transmittance estimate for day `i` (solarcalc.py lines
276-295): rules 1-4 (`tauBase`) followed by rule 5, which at latitudes
below 60 degrees divides by `11 - deltaT` when `deltaT <= 10` and
`deltaT != 0`.  A NaN `deltaT` makes the numpy comparison
`deltaT[i] <= 10` false, so rule 5 is skipped. -/
def calcTau (lat_dd : ℚ) (rain : List Bool) (deltaT : List QF) (i : ℕ) : ℚ :=
  let tau3 := tauBase rain i
  if |lat_dd| < 60 then
    match deltaT.getD i none with
    | some d => if d ≤ 10 ∧ d ≠ 0 then tau3 / (11 - d) else tau3
    | none => tau3
  else tau3

/-- Rules 1-4 of the transmittance chain exactly as the specification
words them: start at 0.70; if `rain i` then 0.40; if `i > 0` and
`rain i` and `rain (i-1)` then 0.30; if `i < last` and not `rain i` and
`rain (i+1)` then 0.60; where `rain d` means precipitation of day `d`
strictly greater than 1 mm. -/
def tauBaseSpec (ptot : List QF) (i : ℕ) : ℚ :=
  let rain := fun j => qfRainFlag (ptot.getD j none)
  let tau1 := if rain i = true then 2/5 else 7/10
  let tau2 := if 0 < i ∧ rain i = true ∧ rain (i-1) = true then 3/10 else tau1
  if i < ptot.length - 1 ∧ rain i = false ∧ rain (i+1) = true then 3/5 else tau2

/-- The transmittance chain exactly as the specification words it:
rules 1-4 (`tauBaseSpec`), then finally, if `|latitude| < 60` and
`0 < ΔT i ≤ 10`, divide the accumulated value by `11 - ΔT i`; where
`ΔT i = |tamax i - tamin i|`. -/
def calcTauSpec (lat_dd : ℚ) (tamax tamin ptot : List QF) (i : ℕ) : ℚ :=
  let tau3 := tauBaseSpec ptot i
  let dT := qfAbs (qfSub (tamax.getD i none) (tamin.getD i none))
  if |lat_dd| < 60 then
    match dT with
    | some d => if 0 < d ∧ d ≤ 10 then tau3 / (11 - d) else tau3
    | none => tau3
  else tau3

lemma rainList_getD (ptot : List QF) (i : ℕ) :
    (rainList ptot).getD i false = qfRainFlag (ptot.getD i none) := by
  simp only [rainList, List.getD_eq_getElem?_getD, List.getElem?_map]
  cases ptot[i]? <;> simp [qfRainFlag]

lemma rainList_length (ptot : List QF) : (rainList ptot).length = ptot.length := by
  simp [rainList]

lemma deltaTList_getD (tamax tamin : List QF) (i : ℕ) :
    (deltaTList tamax tamin).getD i none
      = qfAbs (qfSub (tamax.getD i none) (tamin.getD i none)) := by
  simp only [deltaTList, List.getD_eq_getElem?_getD, List.getElem?_map,
    List.getElem?_zipWith]
  cases tamax[i]? <;> cases tamin[i]? <;> simp [qfAbs, qfSub]

lemma tauBase_bounds (rain : List Bool) (i : ℕ) :
    0 < tauBase rain i ∧ tauBase rain i ≤ 7/10 := by
  unfold tauBase
  split_ifs <;> norm_num

lemma tauBase_eq_spec (ptot : List QF) (i : ℕ) :
    tauBase (rainList ptot) i = tauBaseSpec ptot i := by
  unfold tauBase tauBaseSpec
  rw [rainList_getD, rainList_getD, rainList_getD, rainList_length]

/-- C1: for every day `i` of the input series, the transmittance
classifier computes tau by the fixed ordered override chain stated in
the specification (base 0.70, rain 0.40, two-day rain 0.30, pre-rain
0.60, then the low-latitude division by `11 - ΔT` when `0 < ΔT ≤ 10`),
with `rain d` meaning precipitation strictly greater than 1 mm and
`ΔT i = |tamax i - tamin i|`; day 0 skips the predecessor rule and the
last day skips the successor rule. -/
theorem C1_tau_override_chain (lat_dd : ℚ) (tamax tamin ptot : List QF) (i : ℕ) :
    calcTau lat_dd (rainList ptot) (deltaTList tamax tamin) i
      = calcTauSpec lat_dd tamax tamin ptot i := by
  unfold calcTau calcTauSpec
  rw [deltaTList_getD, tauBase_eq_spec]
  cases hsub : qfSub (tamax.getD i none) (tamin.getD i none) with
  | none => rfl
  | some v =>
      simp only [qfAbs]
      have hiff : (|v| ≤ 10 ∧ |v| ≠ 0) ↔ (0 < |v| ∧ |v| ≤ 10) := by
        constructor
        · rintro ⟨h1, h2⟩
          exact ⟨lt_of_le_of_ne (abs_nonneg v) (Ne.symm h2), h1⟩
        · rintro ⟨h1, h2⟩
          exact ⟨h2, ne_of_gt h1⟩
      simp only [hiff]

/-- C2: for every input series, site latitude and day index, the
transmittance coefficient produced by the classifier lies in `(0, 1]`. -/
theorem C2_tau_in_unit_interval (lat_dd : ℚ) (tamax tamin ptot : List QF) (i : ℕ) :
    0 < calcTau lat_dd (rainList ptot) (deltaTList tamax tamin) i ∧
      calcTau lat_dd (rainList ptot) (deltaTList tamax tamin) i ≤ 1 := by
  obtain ⟨hpos, hle⟩ := tauBase_bounds (rainList ptot) i
  unfold calcTau
  rw [deltaTList_getD]
  cases hsub : qfSub (tamax.getD i none) (tamin.getD i none) with
  | none =>
      simp only [qfAbs]
      split_ifs <;> exact ⟨hpos, by linarith⟩
  | some v =>
      simp only [qfAbs]
      have habs : (0:ℚ) ≤ |v| := abs_nonneg v
      split_ifs with hlat hcond
      · obtain ⟨h10, hne⟩ := hcond
        have h1 : (1:ℚ) ≤ 11 - |v| := by linarith
        constructor
        · exact div_pos hpos (by linarith)
        · calc tauBase (rainList ptot) i / (11 - |v|)
              ≤ tauBase (rainList ptot) i := div_le_self hpos.le h1
            _ ≤ 1 := by linarith
      · exact ⟨hpos, by linarith⟩
      · exact ⟨hpos, by linarith⟩

/-! ### Astronomical geometry (real-valued idealisation of the float code) -/

/-- Equation of Time correction in hours (solarcalc.py lines 58-89,
Campbell and Norman eq. 11.4). -/
noncomputable def calc_eqn_of_time (dayofyear : ℕ) : ℝ :=
  let f := (279.575 + 0.98565 * dayofyear) * Real.pi / 180
  (-104.7 * Real.sin f +
    596.2 * Real.sin (2 * f) +
    4.3 * Real.sin (3 * f) +
    -12.7 * Real.sin (4 * f) +
    -429.3 * Real.cos f +
    -2.0 * Real.cos (2 * f) +
    19.3 * Real.cos (3 * f)) / 3600

/-- The numpy sign function `np.sign` on reals. -/
noncomputable def signR (x : ℝ) : ℝ :=
  if 0 < x then 1 else if x < 0 then -1 else 0

/-- Python/numpy float modulo `a % b = a - b * ⌊a / b⌋` (the result
follows the sign of `b`); the `b = 0` NaN case is handled in the
NaN-aware layer below. -/
noncomputable def pymod (a b : ℝ) : ℝ := a - b * (⌊a / b⌋ : ℝ)

/-- Longitudinal correction in hours (solarcalc.py lines 92-113):
`lstm = lon - lon % (sign(lon) * 15)`, correction `(lon - lstm) * 24/360`.
This real-valued version is meaningful only for nonzero longitude: at
longitude 0 the program's modulus is by `sign(0) * 15 = 0` and yields
NaN, which is modelled by `calc_long_corrNR` below; the lemma
`calc_long_corrNR_eq_pure` proves this version agrees with the NaN-aware
one exactly on `lon_dd ≠ 0`, the only domain on which it is used. -/
noncomputable def calc_long_corr (lon_dd : ℝ) : ℝ :=
  let lstm := lon_dd - pymod lon_dd (signR lon_dd * 15)
  (lon_dd - lstm) * (24 / 360)

/-- Solar declination angle in radians (solarcalc.py lines 116-142,
Campbell and Norman eq. 11.2). -/
noncomputable def calc_solar_declination (dayofyear : ℕ) : ℝ :=
  Real.arcsin (0.39785 * Real.sin
    ((278.97 + 0.9856 * dayofyear +
        1.9165 * Real.sin ((356.6 + 0.9856 * dayofyear) * Real.pi / 180)) *
      Real.pi / 180))

/-- Solar noon in decimal hours (solarcalc.py lines 256-264), for
nonzero longitude (see `calc_long_corr`); `solarnoonNR_eq_pure` below
proves agreement with the NaN-aware `solarnoonNR` on that domain.
The zenith angle and half-day length of lines 145-206 appear only in
their NaN-aware forms `zenithNR` and `halfdaylengthNR` below, because
their out-of-domain arccos and zero-denominator paths produce NaN in
the program. -/
noncomputable def solarnoonR (lon_dd : ℝ) (dayofyear : ℕ) : ℝ :=
  12 - calc_long_corr lon_dd - calc_eqn_of_time dayofyear

lemma abs_calc_eqn_of_time_le_one (d : ℕ) : |calc_eqn_of_time d| ≤ 1 := by
  simp only [calc_eqn_of_time]
  set f := (279.575 + 0.98565 * (d : ℝ)) * Real.pi / 180 with hf
  have s1l := Real.neg_one_le_sin f
  have s1u := Real.sin_le_one f
  have s2l := Real.neg_one_le_sin (2 * f)
  have s2u := Real.sin_le_one (2 * f)
  have s3l := Real.neg_one_le_sin (3 * f)
  have s3u := Real.sin_le_one (3 * f)
  have s4l := Real.neg_one_le_sin (4 * f)
  have s4u := Real.sin_le_one (4 * f)
  have c1l := Real.neg_one_le_cos f
  have c1u := Real.cos_le_one f
  have c2l := Real.neg_one_le_cos (2 * f)
  have c2u := Real.cos_le_one (2 * f)
  have c3l := Real.neg_one_le_cos (3 * f)
  have c3u := Real.cos_le_one (3 * f)
  rw [abs_le]
  constructor <;> linarith

/-- The local standard time meridian as the specification words it: the
longitude rounded toward zero to the nearest multiple of 15 degrees in
the direction of its sign. -/
noncomputable def meridianSpec (lon_dd : ℝ) : ℝ :=
  if 0 < lon_dd then 15 * (⌊lon_dd / 15⌋ : ℝ) else 15 * (⌈lon_dd / 15⌉ : ℝ)

/-- C8: for every nonzero longitude, `calc_long_corr` returns
`(longitude - meridian) * 24/360` hours with the meridian the longitude
rounded toward zero to the nearest multiple of 15 degrees, and solar
noon is `12 - longitudinal correction - equation-of-time correction`. -/
theorem C8_long_corr_meridian (lon_dd : ℝ) (dayofyear : ℕ) (hlon : lon_dd ≠ 0) :
    calc_long_corr lon_dd = (lon_dd - meridianSpec lon_dd) * (24 / 360) ∧
      solarnoonR lon_dd dayofyear
        = 12 - calc_long_corr lon_dd - calc_eqn_of_time dayofyear := by
  refine ⟨?_, rfl⟩
  rcases hlon.lt_or_lt with hneg | hpos
  · have hs : signR lon_dd = -1 := by
      unfold signR
      rw [if_neg (not_lt.mpr hneg.le), if_pos hneg]
    unfold calc_long_corr pymod meridianSpec
    rw [hs, if_neg (not_lt.mpr hneg.le)]
    have hdiv : lon_dd / (-1 * 15) = -(lon_dd / 15) := by ring
    rw [hdiv, Int.floor_neg]
    push_cast
    ring
  · have hs : signR lon_dd = 1 := by
      unfold signR
      rw [if_pos hpos]
    unfold calc_long_corr pymod meridianSpec
    rw [hs, if_pos hpos, one_mul]
    ring

/-- Witness for C8 at longitude 20 degrees (meridian 15, correction
`5 * 24/360` hours). -/
theorem C8_long_corr_meridian_witness :
    (20 : ℝ) ≠ 0 ∧
      (calc_long_corr 20 = ((20 : ℝ) - meridianSpec 20) * (24 / 360) ∧
        solarnoonR 20 1 = 12 - calc_long_corr 20 - calc_eqn_of_time 1) :=
  ⟨by norm_num, C8_long_corr_meridian 20 1 (by norm_num)⟩

/-! ### NaN-aware real arithmetic (IEEE NaN modelled as `none`) -/

/-- NaN-aware reals: `none` models IEEE NaN. -/
abbrev NR := Option ℝ

/-- NaN-propagating addition. -/
def nrAdd : NR → NR → NR
  | some x, some y => some (x + y)
  | _, _ => none

/-- NaN-propagating subtraction. -/
def nrSub : NR → NR → NR
  | some x, some y => some (x - y)
  | _, _ => none

/-- NaN-propagating multiplication. -/
def nrMul : NR → NR → NR
  | some x, some y => some (x * y)
  | _, _ => none

/-- NaN-aware division; division by zero also yields `none` (numpy
produces an inf or NaN there, and every such value in this pipeline is
masked or zero-filled before being reported, so the distinction never
surfaces). -/
noncomputable def nrDiv : NR → NR → NR
  | some x, some y => if y = 0 then none else some (x / y)
  | _, _ => none

/-- NaN-aware strict order: every comparison against NaN is false. -/
def nrLt : NR → NR → Prop
  | some x, some y => x < y
  | _, _ => False

/-- Cosine `np.cos` lifted to NaN-aware reals. -/
noncomputable def nrCos : NR → NR := Option.map Real.cos

/-- Power `np.power` lifted to NaN-aware reals (real exponentiation). -/
noncomputable def nrPow : NR → NR → NR
  | some x, some y => some (x ^ y)
  | _, _ => none

/-- Arccosine `np.arccos` lifted: NaN outside `[-1, 1]`, as numpy returns. -/
noncomputable def nrArccos : NR → NR
  | some x => if -1 ≤ x ∧ x ≤ 1 then some (Real.arccos x) else none
  | none => none

/-- Python float modulo lifted: a zero modulus yields NaN (numpy's
behaviour for `x % 0.0`). -/
noncomputable def pymodNR : NR → NR → NR
  | some a, some b => if b = 0 then none else some (pymod a b)
  | _, _ => none

lemma nrAdd_some_some (a b : ℝ) : nrAdd (some a) (some b) = some (a + b) := rfl

lemma nrSub_some_some (a b : ℝ) : nrSub (some a) (some b) = some (a - b) := rfl

lemma nrMul_some_some (a b : ℝ) : nrMul (some a) (some b) = some (a * b) := rfl

lemma nrDiv_some_some (a b : ℝ) :
    nrDiv (some a) (some b) = if b = 0 then none else some (a / b) := rfl

lemma nrPow_some_some (a b : ℝ) : nrPow (some a) (some b) = some (a ^ b) := rfl

lemma nrLt_some_some (a b : ℝ) : nrLt (some a) (some b) = (a < b) := rfl

lemma nrAdd_none_right (a : NR) : nrAdd a none = none := by cases a <;> rfl

lemma nrAdd_none_left (a : NR) : nrAdd none a = none := by cases a <;> rfl

lemma nrSub_none_right (a : NR) : nrSub a none = none := by cases a <;> rfl

lemma nrSub_none_left (a : NR) : nrSub none a = none := by cases a <;> rfl

lemma nrMul_none_right (a : NR) : nrMul a none = none := by cases a <;> rfl

lemma nrMul_none_left (a : NR) : nrMul none a = none := by cases a <;> rfl

lemma nrDiv_none_right (a : NR) : nrDiv a none = none := by cases a <;> rfl

lemma nrDiv_none_left (a : NR) : nrDiv none a = none := by cases a <;> rfl

lemma nrPow_none_right (a : NR) : nrPow a none = none := by cases a <;> rfl

lemma nrPow_none_left (a : NR) : nrPow none a = none := by cases a <;> rfl

lemma nrCos_none : nrCos none = none := rfl

lemma nrCos_some (a : ℝ) : nrCos (some a) = some (Real.cos a) := rfl

lemma nrArccos_none : nrArccos none = none := rfl

lemma nrLt_none_right (a : NR) : nrLt a none = False := by cases a <;> rfl

lemma nrLt_none_left (a : NR) : nrLt none a = False := by cases a <;> rfl

lemma pymodNR_some_some (a b : ℝ) :
    pymodNR (some a) (some b) = if b = 0 then none else some (pymod a b) := rfl

/-! ### NaN-aware per-day geometry and the hourly irradiance pipeline -/

/-- Degree-to-radian conversion `np.radians` (solarcalc.py line 253). -/
noncomputable def radiansR (x : ℝ) : ℝ := x * Real.pi / 180

/-- NaN-aware longitudinal correction (solarcalc.py lines 92-113): at
longitude 0 the modulus is taken by `sign(0) * 15 = 0`, which numpy
evaluates to NaN. -/
noncomputable def calc_long_corrNR (lon_dd : ℝ) : NR :=
  let lstm := nrSub (some lon_dd) (pymodNR (some lon_dd) (some (signR lon_dd * 15)))
  nrMul (nrSub (some lon_dd) lstm) (some (24 / 360))

/-- NaN-aware solar noon (solarcalc.py lines 256-264). -/
noncomputable def solarnoonNR (lon_dd : ℝ) (dayofyear : ℕ) : NR :=
  nrSub (nrSub (some 12) (calc_long_corrNR lon_dd))
    (some (calc_eqn_of_time dayofyear))

/-- NaN-aware half-day length at psi = 90 degrees (solarcalc.py lines
179-206): the quotient feeding arccos is NaN when its denominator
vanishes, and arccos is NaN outside `[-1, 1]` (polar day/night).  The
solar declination argument of the code always lies inside the arcsin
domain (`|0.39785 * sin| < 1`), so the pure `calc_solar_declination` is
used for it. -/
noncomputable def halfdaylengthNR (solar_dec lat_rad : ℝ) : NR :=
  let A := Real.cos (90 * Real.pi / 180) - Real.sin lat_rad * Real.sin solar_dec
  let B := Real.cos lat_rad * Real.cos solar_dec
  nrDiv (nrMul (nrArccos (nrDiv (some A) (some B))) (some (180 / Real.pi)))
    (some 15)

/-- NaN-aware sunrise (solarcalc.py line 272). -/
noncomputable def sunriseNR (lon_dd lat_rad : ℝ) (dayofyear : ℕ) : NR :=
  nrSub (solarnoonNR lon_dd dayofyear)
    (halfdaylengthNR (calc_solar_declination dayofyear) lat_rad)

/-- NaN-aware sunset (solarcalc.py line 273). -/
noncomputable def sunsetNR (lon_dd lat_rad : ℝ) (dayofyear : ℕ) : NR :=
  nrAdd (solarnoonNR lon_dd dayofyear)
    (halfdaylengthNR (calc_solar_declination dayofyear) lat_rad)

/-- NaN-aware zenith angle (solarcalc.py lines 145-176) at integer hour
`time`, given a possibly-NaN solar noon. -/
noncomputable def zenithNR (lat_rad solar_dec : ℝ) (time : ℕ)
    (solar_noon : NR) : NR :=
  let hour_angle :=
    nrMul (nrMul (some 15) (nrSub solar_noon (some (time : ℝ))))
      (some (Real.pi / 180))
  nrArccos (nrAdd (some (Real.sin lat_rad * Real.sin solar_dec))
    (nrMul (some (Real.cos lat_rad * Real.cos solar_dec)) (nrCos hour_angle)))

/-- Rounding `np.round(x, 2)` (see the modelling note at the top of the file). -/
noncomputable def round2 (x : ℝ) : ℝ := ((round (x * 100) : ℤ) : ℝ) / 100

open scoped Classical

/-- The St finalisation stage (solarcalc.py lines 325-333): sum beam and
diffuse irradiance, clamp a negative sum to 0, fill a NaN sum with 0,
and round to two decimal places. -/
noncomputable def stStage (sb sd : NR) : ℝ :=
  let st := nrAdd sb sd
  let st1 := if nrLt st (some 0) then some 0 else st
  let st2 : ℝ := match st1 with
    | none => 0
    | some v => v
  round2 st2

/-- One reported hourly irradiance value (solarcalc.py lines 256-333):
solar geometry, the optical-air-mass beam and diffuse model, the strict
daylight-window mask `time < sunrise or time > sunset`, then the St
finalisation stage. -/
noncomputable def hourlySolarRad (lon_dd lat_dd alt tau : ℝ)
    (dayofyear : ℕ) (h : ℕ) : ℝ :=
  let lat_rad := radiansR lat_dd
  let solarnoon := solarnoonNR lon_dd dayofyear
  let solarD := calc_solar_declination dayofyear
  let sunrise := sunriseNR lon_dd lat_rad dayofyear
  let sunset := sunsetNR lon_dd lat_rad dayofyear
  let zenith := zenithNR lat_rad solarD h solarnoon
  let Pa := 101.3 * Real.exp (-1 * alt / 8200)
  let m := nrDiv (nrDiv (some Pa) (some 101.3)) (nrCos zenith)
  let Sb0 := nrMul (nrMul (some 1360) (nrPow (some tau) m)) (nrCos zenith)
  let Sb := if nrLt (some (h : ℝ)) sunrise ∨ nrLt sunset (some (h : ℝ))
    then some 0 else Sb0
  let Sd0 := nrMul (nrMul (nrMul (some 0.3) (nrSub (some 1) (nrPow (some tau) m)))
    (some 1360)) (nrCos zenith)
  let Sd := if nrLt (some (h : ℝ)) sunrise ∨ nrLt sunset (some (h : ℝ))
    then some 0 else Sd0
  stStage Sb Sd

lemma round2_zero : round2 0 = 0 := by
  unfold round2
  norm_num

lemma round2_nonneg {x : ℝ} (hx : 0 ≤ x) : 0 ≤ round2 x := by
  unfold round2
  have h : (0 : ℤ) ≤ round (x * 100) := by
    rw [round_eq]
    exact Int.floor_nonneg.mpr (by linarith)
  have h2 : (0 : ℝ) ≤ ((round (x * 100) : ℤ) : ℝ) := by exact_mod_cast h
  positivity

lemma stStage_none (sb sd : NR) (h : nrAdd sb sd = none) : stStage sb sd = 0 := by
  unfold stStage
  rw [h]
  simp [nrLt_none_left, round2_zero]

lemma stStage_neg (sb sd : NR) (v : ℝ) (h : nrAdd sb sd = some v)
    (hv : v < 0) : stStage sb sd = 0 := by
  unfold stStage
  rw [h]
  dsimp only
  rw [if_pos (show nrLt (some v) (some 0) from hv)]
  simp [round2_zero]

lemma stStage_nonneg (sb sd : NR) : 0 ≤ stStage sb sd := by
  unfold stStage
  cases h : nrAdd sb sd with
  | none => simp [nrLt_none_left, round2_zero]
  | some v =>
      dsimp only
      by_cases hv : v < 0
      · rw [if_pos (show nrLt (some v) (some 0) from hv)]
        simp [round2_zero]
      · rw [if_neg (show ¬nrLt (some v) (some 0) from hv)]
        exact round2_nonneg (not_lt.mp hv)

lemma stStage_zero : stStage (some 0) (some 0) = 0 := by
  unfold stStage
  rw [nrAdd_some_some, add_zero]
  dsimp only
  rw [if_neg (show ¬nrLt (some (0:ℝ)) (some 0) from lt_irrefl 0)]
  simp [round2_zero]

/-- C3: for every day and every integer hour strictly before that day's
sunrise or strictly after its sunset, the reported hourly irradiance is
exactly 0. -/
theorem C3_outside_daylight_zero (lon_dd lat_dd alt tau : ℝ)
    (dayofyear h : ℕ) (sr ss : ℝ)
    (hsr : sunriseNR lon_dd (radiansR lat_dd) dayofyear = some sr)
    (hss : sunsetNR lon_dd (radiansR lat_dd) dayofyear = some ss)
    (hout : (h : ℝ) < sr ∨ ss < (h : ℝ)) :
    hourlySolarRad lon_dd lat_dd alt tau dayofyear h = 0 := by
  simp only [hourlySolarRad]
  rw [hsr, hss]
  simp only [nrLt_some_some]
  rw [if_pos hout, if_pos hout]
  exact stStage_zero

lemma cos_calc_solar_declination_pos (d : ℕ) :
    0 < Real.cos (calc_solar_declination d) := by
  unfold calc_solar_declination
  rw [Real.cos_arcsin]
  apply Real.sqrt_pos.mpr
  have h1 := Real.neg_one_le_sin
    ((278.97 + 0.9856 * (d : ℝ) +
        1.9165 * Real.sin ((356.6 + 0.9856 * (d : ℝ)) * Real.pi / 180)) *
      Real.pi / 180)
  have h2 := Real.sin_le_one
    ((278.97 + 0.9856 * (d : ℝ) +
        1.9165 * Real.sin ((356.6 + 0.9856 * (d : ℝ)) * Real.pi / 180)) *
      Real.pi / 180)
  nlinarith

/-- Witness for C3 at longitude 15, latitude 0, day 1, hour 0: the
half-day length evaluates to exactly 6 hours, solar noon to
`12 - ET(1)`, and hour 0 lies strictly before sunrise `6 - ET(1)`. -/
theorem C3_outside_daylight_zero_witness :
    hourlySolarRad 15 0 100 (1/2) 1 0 = 0 := by
  have h15 : signR (15 : ℝ) = 1 := by
    unfold signR
    rw [if_pos (by norm_num : (0:ℝ) < 15)]
  have hmod : pymodNR (some (15:ℝ)) (some (signR 15 * 15)) = some 0 := by
    rw [h15, one_mul, pymodNR_some_some, if_neg (by norm_num : (15:ℝ) ≠ 0)]
    unfold pymod
    rw [show (15:ℝ)/15 = 1 by norm_num, Int.floor_one]
    norm_num
  have hlc : calc_long_corrNR 15 = some 0 := by
    simp only [calc_long_corrNR, hmod, nrSub_some_some, nrMul_some_some]
    norm_num
  have hnoon : solarnoonNR 15 1 = some (12 - calc_eqn_of_time 1) := by
    simp only [solarnoonNR, hlc, nrSub_some_some]
    norm_num
  have hr0 : radiansR 0 = 0 := by
    unfold radiansR
    ring
  have hcos := cos_calc_solar_declination_pos 1
  have hhalf : halfdaylengthNR (calc_solar_declination 1) (radiansR 0) = some 6 := by
    rw [hr0]
    simp only [halfdaylengthNR]
    rw [show Real.cos (90 * Real.pi / 180) -
          Real.sin 0 * Real.sin (calc_solar_declination 1) = 0 by
        rw [show (90:ℝ) * Real.pi / 180 = Real.pi / 2 by ring,
          Real.cos_pi_div_two, Real.sin_zero]
        ring]
    rw [show Real.cos 0 * Real.cos (calc_solar_declination 1)
          = Real.cos (calc_solar_declination 1) by
        rw [Real.cos_zero, one_mul]]
    rw [nrDiv_some_some, if_neg hcos.ne', zero_div]
    have harc : nrArccos (some (0:ℝ)) = some (Real.pi / 2) := by
      simp only [nrArccos]
      rw [if_pos (by norm_num : -1 ≤ (0:ℝ) ∧ (0:ℝ) ≤ 1), Real.arccos_zero]
    rw [harc, nrMul_some_some, nrDiv_some_some,
      if_neg (by norm_num : (15:ℝ) ≠ 0)]
    congr 1
    field_simp
    ring
  have hsr : sunriseNR 15 (radiansR 0) 1 = some (12 - calc_eqn_of_time 1 - 6) := by
    simp only [sunriseNR, hnoon, hhalf, nrSub_some_some]
  have hss : sunsetNR 15 (radiansR 0) 1 = some (12 - calc_eqn_of_time 1 + 6) := by
    simp only [sunsetNR, hnoon, hhalf, nrAdd_some_some]
  have hET := abs_calc_eqn_of_time_le_one 1
  rw [abs_le] at hET
  refine C3_outside_daylight_zero 15 0 100 (1/2) 1 0 _ _ hsr hss (Or.inl ?_)
  push_cast
  linarith [hET.2]

/-- C6: the reported hourly total irradiance is never negative; a NaN
sum or a negative sum of beam and diffuse irradiance is replaced by 0;
and the whole pipeline output is always a non-negative real number (the
condition is absorbed, never an error). -/
theorem C6_st_clamp_nonneg :
    (∀ sb sd : NR, 0 ≤ stStage sb sd) ∧
      (∀ sb sd : NR, nrAdd sb sd = none → stStage sb sd = 0) ∧
      (∀ (sb sd : NR) (v : ℝ), nrAdd sb sd = some v → v < 0 →
        stStage sb sd = 0) ∧
      (∀ (lon_dd lat_dd alt tau : ℝ) (dayofyear h : ℕ),
        0 ≤ hourlySolarRad lon_dd lat_dd alt tau dayofyear h) := by
  refine ⟨stStage_nonneg, stStage_none, stStage_neg, ?_⟩
  intro lon_dd lat_dd alt tau dayofyear h
  simp only [hourlySolarRad]
  exact stStage_nonneg _ _

/-- Witness for C6: a NaN sum and a negative sum are both reported as 0,
and a well-defined sum is reported non-negative. -/
theorem C6_st_clamp_nonneg_witness :
    0 ≤ stStage (some 3) (some 4) ∧ stStage none (some 1) = 0 ∧
      stStage (some (-5)) (some 2) = 0 := by
  refine ⟨C6_st_clamp_nonneg.1 (some 3) (some 4),
    C6_st_clamp_nonneg.2.1 none (some 1) (nrAdd_none_left (some 1)),
    C6_st_clamp_nonneg.2.2.1 (some (-5)) (some 2) (-3) ?_ (by norm_num)⟩
  rw [nrAdd_some_some]
  norm_num

/-- C9: at longitude exactly 0, `sign(0) * 15 = 0` makes the modulus
NaN, so the longitudinal correction, solar noon, sunrise, sunset and
zenith angle are all NaN, and every reported hourly irradiance value
degrades to 0 through the NaN-to-zero fill rather than being computed. -/
theorem C9_zero_longitude_degrades (lat_dd alt tau : ℝ) (dayofyear h : ℕ) :
    calc_long_corrNR 0 = none ∧
      solarnoonNR 0 dayofyear = none ∧
      sunriseNR 0 (radiansR lat_dd) dayofyear = none ∧
      sunsetNR 0 (radiansR lat_dd) dayofyear = none ∧
      zenithNR (radiansR lat_dd) (calc_solar_declination dayofyear) h
        (solarnoonNR 0 dayofyear) = none ∧
      hourlySolarRad 0 lat_dd alt tau dayofyear h = 0 := by
  have hsign : signR (0:ℝ) = 0 := by
    unfold signR
    norm_num
  have hlc : calc_long_corrNR 0 = none := by
    simp only [calc_long_corrNR, hsign, zero_mul, pymodNR_some_some]
    simp only [if_true, eq_self_iff_true, nrSub_none_right, nrSub_none_left,
      nrMul_none_left]
  have hnoon : solarnoonNR 0 dayofyear = none := by
    simp only [solarnoonNR, hlc, nrSub_none_right, nrSub_none_left]
  have hsr9 : sunriseNR 0 (radiansR lat_dd) dayofyear = none := by
    simp only [sunriseNR, hnoon, nrSub_none_left]
  have hss9 : sunsetNR 0 (radiansR lat_dd) dayofyear = none := by
    simp only [sunsetNR, hnoon, nrAdd_none_left]
  have hz : zenithNR (radiansR lat_dd) (calc_solar_declination dayofyear) h
      (solarnoonNR 0 dayofyear) = none := by
    rw [hnoon]
    simp only [zenithNR, nrSub_none_left, nrMul_none_right, nrMul_none_left,
      nrCos_none, nrAdd_none_right, nrArccos_none]
  have hmask : ¬(nrLt (some ((h : ℕ) : ℝ)) none ∨ nrLt none (some ((h : ℕ) : ℝ))) := by
    simp [nrLt_none_right, nrLt_none_left]
  have hhourly : hourlySolarRad 0 lat_dd alt tau dayofyear h = 0 := by
    simp only [hourlySolarRad]
    rw [hz, hsr9, hss9, if_neg hmask, if_neg hmask]
    simp only [nrCos_none, nrDiv_none_right, nrPow_none_right,
      nrMul_none_right, nrMul_none_left]
    exact stStage_none none none (nrAdd_none_left none)
  exact ⟨hlc, hnoon, hsr9, hss9, hz, hhourly⟩

/-! ### Pipeline orchestrator (`calc_solar_rad`, solarcalc.py lines 209-349) -/

/-- One daily input record: the calendar day number of its (midnight)
date, the day-of-year that `pandas.DatetimeIndex.dayofyear` derives from
that date (carried as data; no claim depends on the calendar
arithmetic), and the three climate readings, NaN-aware. -/
structure ClimateRecord where
  day : ℤ
  dayofyear : ℕ
  tamax : QF
  tamin : QF
  ptot : QF
deriving Inhabited, DecidableEq

/-- The hourly output table (solarcalc.py lines 337-349): the hourly
DatetimeIndex (as hours since the epoch), the irradiance column, and the
per-hour ΔT and tau columns. -/
structure SolarOutput where
  times : List ℤ
  solar_rad : List ℝ
  deltat : List QF
  tau : List ℚ

/-- The per-day transmittance of the loop body, fed from the rain flags
and temperature swings of the whole series (lines 244-246, 276-295). -/
def tausOf (lat_dd : ℚ) (data : List ClimateRecord) (i : ℕ) : ℚ :=
  calcTau lat_dd (rainList (data.map (·.ptot)))
    (deltaTList (data.map (·.tamax)) (data.map (·.tamin))) i

/-- The accumulated `daily_solar_rad` column: each loop iteration
extends it with the day's 24 rounded hourly values (line 333). -/
noncomputable def solarRadColumn (lon_dd lat_dd alt : ℚ)
    (data : List ClimateRecord) : List ℝ :=
  (List.range data.length).flatMap (fun i =>
    (List.range 24).map (fun h =>
      hourlySolarRad (lon_dd : ℝ) (lat_dd : ℝ) (alt : ℝ)
        ((tausOf lat_dd data i : ℚ) : ℝ) (data.getD i default).dayofyear h))

/-- The accumulated `deltat_array` column: 24 copies of the day's ΔT per
iteration (line 335). -/
def deltatColumn (data : List ClimateRecord) : List QF :=
  (List.range data.length).flatMap (fun i =>
    List.replicate 24
      ((deltaTList (data.map (·.tamax)) (data.map (·.tamin))).getD i none))

/-- The accumulated `tao_array` column: 24 copies of the day's tau per
iteration (line 334). -/
def tauColumn (lat_dd : ℚ) (data : List ClimateRecord) : List ℚ :=
  (List.range data.length).flatMap (fun i =>
    List.replicate 24 (tausOf lat_dd data i))

/-- The hourly output index
`pd.date_range(start=index[0], end=index[-1] + 23H, freq=H)`
(lines 340-343), in hours: both endpoints included, empty when the end
precedes the start. -/
def hourlyIndex (firstDay lastDay : ℤ) : List ℤ :=
  (List.range (24 * (lastDay - firstDay) + 24).toNat).map
    (fun k : ℕ => 24 * firstDay + (k : ℤ))

/-- The pipeline orchestrator (solarcalc.py lines 209-349) over a list
of daily records, with rational site parameters (coerced to reals for
the geometry).  `none` marks the places where pandas raises: on an empty
input `climate_data.index[0]` raises IndexError (line 341), and when the
hourly index does not have the same length as the accumulated 24-per-day
columns the column assignment of line 345 raises ValueError (which
happens exactly when the input dates are not one contiguous daily
sequence). -/
noncomputable def calc_solar_rad (lon_dd lat_dd alt : ℚ)
    (data : List ClimateRecord) : Option SolarOutput :=
  if hne : data = [] then none
  else
    let times := hourlyIndex (data.head hne).day (data.getLast hne).day
    if times.length = (solarRadColumn lon_dd lat_dd alt data).length then
      some ⟨times, solarRadColumn lon_dd lat_dd alt data,
        deltatColumn data, tauColumn lat_dd data⟩
    else none

lemma length_flatMap_const {α : Type} (n c : ℕ) (f : ℕ → List α)
    (hf : ∀ i, (f i).length = c) :
    ((List.range n).flatMap f).length = n * c := by
  induction n with
  | zero => simp
  | succ m ih =>
      rw [List.range_succ, List.flatMap_append, List.length_append, ih]
      simp [hf]
      ring

lemma solarRadColumn_length (lon_dd lat_dd alt : ℚ)
    (data : List ClimateRecord) :
    (solarRadColumn lon_dd lat_dd alt data).length = 24 * data.length := by
  unfold solarRadColumn
  rw [length_flatMap_const data.length 24 _ (fun i => by simp)]
  ring

lemma deltatColumn_length (data : List ClimateRecord) :
    (deltatColumn data).length = 24 * data.length := by
  unfold deltatColumn
  rw [length_flatMap_const data.length 24 _ (fun i => by simp)]
  ring

lemma tauColumn_length (lat_dd : ℚ) (data : List ClimateRecord) :
    (tauColumn lat_dd data).length = 24 * data.length := by
  unfold tauColumn
  rw [length_flatMap_const data.length 24 _ (fun i => by simp)]
  ring

lemma chain'_succ_range_map (c : ℤ) (n : ℕ) :
    List.Chain' (fun a b => b = a + 1)
      ((List.range n).map (fun k : ℕ => c + (k : ℤ))) := by
  rw [List.chain'_map]
  cases n with
  | zero => simp
  | succ m =>
      rw [List.chain'_range_succ]
      intro i hi
      push_cast
      ring

lemma calc_solar_rad_cons (lon_dd lat_dd alt : ℚ) (d0 : ClimateRecord)
    (rest : List ClimateRecord)
    (hlast : ((d0 :: rest).getLast (List.cons_ne_nil d0 rest)).day
      = d0.day + (rest.length : ℤ)) :
    calc_solar_rad lon_dd lat_dd alt (d0 :: rest)
      = some ⟨(List.range (24 * (rest.length + 1))).map
            (fun k : ℕ => 24 * d0.day + (k : ℤ)),
          solarRadColumn lon_dd lat_dd alt (d0 :: rest),
          deltatColumn (d0 :: rest), tauColumn lat_dd (d0 :: rest)⟩ := by
  have hne : (d0 :: rest) ≠ [] := List.cons_ne_nil d0 rest
  have htimes : hourlyIndex ((d0 :: rest).head hne).day
      ((d0 :: rest).getLast hne).day
      = (List.range (24 * (rest.length + 1))).map
          (fun k : ℕ => 24 * d0.day + (k : ℤ)) := by
    rw [List.head_cons]
    unfold hourlyIndex
    rw [hlast]
    have h1 : d0.day + (rest.length : ℤ) - d0.day = (rest.length : ℤ) := by
      ring
    rw [h1]
    have h2 : (24 * (rest.length : ℤ) + 24).toNat = 24 * (rest.length + 1) := by
      omega
    rw [h2]
  have hguard : ((List.range (24 * (rest.length + 1))).map
      (fun k : ℕ => 24 * d0.day + (k : ℤ))).length
      = (solarRadColumn lon_dd lat_dd alt (d0 :: rest)).length := by
    rw [List.length_map, List.length_range, solarRadColumn_length,
      List.length_cons]
  unfold calc_solar_rad
  rw [dif_neg hne]
  dsimp only
  rw [htimes, if_pos hguard]

/-- C4: for every chronologically ordered, gap-free, non-empty daily
input series of `N` records, `calc_solar_rad` returns exactly `24 * N`
hourly rows whose timestamps start at the first day 00:00, end at the
last day 23:00, and strictly increase by exactly one hour with no gaps
and no reordering. -/
theorem C4_output_shape (lon_dd lat_dd alt : ℚ) (d0 : ClimateRecord)
    (rest : List ClimateRecord)
    (hcontig : ∀ i (hi : i < (d0 :: rest).length),
      ((d0 :: rest).get ⟨i, hi⟩).day = d0.day + (i : ℤ)) :
    ∃ out, calc_solar_rad lon_dd lat_dd alt (d0 :: rest) = some out ∧
      out.times.length = 24 * (d0 :: rest).length ∧
      out.solar_rad.length = 24 * (d0 :: rest).length ∧
      out.times = (List.range (24 * (d0 :: rest).length)).map
        (fun k : ℕ => 24 * d0.day + (k : ℤ)) ∧
      out.times.head? = some (24 * d0.day) ∧
      out.times.getLast?
        = some (24 * (d0.day + ((d0 :: rest).length : ℤ) - 1) + 23) ∧
      List.Chain' (fun a b => b = a + 1) out.times := by
  have hne : (d0 :: rest) ≠ [] := List.cons_ne_nil d0 rest
  have hlast : ((d0 :: rest).getLast hne).day = d0.day + (rest.length : ℤ) := by
    have h1 := hcontig ((d0 :: rest).length - 1) (by simp)
    rw [List.getLast_eq_getElem]
    simpa using h1
  refine ⟨_, calc_solar_rad_cons lon_dd lat_dd alt d0 rest hlast,
    ?_, ?_, ?_, ?_, ?_, ?_⟩
  · simp
  · rw [solarRadColumn_length]
  · simp
  · rw [List.head?_eq_getElem?, List.getElem?_map,
      List.getElem?_range (by omega : 0 < 24 * (rest.length + 1))]
    simp
  · rw [List.getLast?_eq_getElem?, List.length_map, List.length_range,
      List.getElem?_map, List.getElem?_range
        (by omega : 24 * (rest.length + 1) - 1 < 24 * (rest.length + 1))]
    simp only [Option.map_some', List.length_cons]
    congr 1
    omega
  · exact chain'_succ_range_map (24 * d0.day) (24 * (rest.length + 1))

/-- Witness for C4 on a concrete two-day contiguous series. -/
theorem C4_output_shape_witness :
    ∃ out, calc_solar_rad 15 45 100
        ([⟨5, 1, some 1, some 0, some 0⟩, ⟨6, 2, some 1, some 0, some 0⟩] :
          List ClimateRecord) = some out ∧
      out.times.length
        = 24 * ([⟨5, 1, some 1, some 0, some 0⟩, ⟨6, 2, some 1, some 0, some 0⟩] :
            List ClimateRecord).length := by
  obtain ⟨out, h1, h2, -⟩ :=
    C4_output_shape 15 45 100 ⟨5, 1, some 1, some 0, some 0⟩
      [⟨6, 2, some 1, some 0, some 0⟩] (by decide)
  exact ⟨out, h1, h2⟩

/-- C5 counterexample: a series whose first record has an undefined
(NaN) maximum temperature does NOT fail the run: `calc_solar_rad`
returns an output table, and the malformed day is passed through as 24
rows with undefined ΔT. -/
theorem C5_malformed_not_fatal_counterexample :
    (calc_solar_rad 15 45 100
        ([⟨0, 1, none, some (-5), some 0⟩, ⟨1, 2, some 3, some (-5), some 0⟩] :
          List ClimateRecord)).isSome = true ∧
      (calc_solar_rad 15 45 100
          ([⟨0, 1, none, some (-5), some 0⟩, ⟨1, 2, some 3, some (-5), some 0⟩] :
            List ClimateRecord)).map SolarOutput.deltat
        = some (List.replicate 24 none ++ List.replicate 24 (some 8)) := by
  rw [calc_solar_rad_cons 15 45 100 ⟨0, 1, none, some (-5), some 0⟩
    [⟨1, 2, some 3, some (-5), some 0⟩] (by decide)]
  constructor
  · rfl
  · rw [Option.map_some']
    congr 1
    have h28 : deltaTList
        (([⟨0, 1, none, some (-5), some 0⟩, ⟨1, 2, some 3, some (-5), some 0⟩] :
          List ClimateRecord).map (·.tamax))
        (([⟨0, 1, none, some (-5), some 0⟩, ⟨1, 2, some 3, some (-5), some 0⟩] :
          List ClimateRecord).map (·.tamin))
        = [none, some 8] := by
      simp [deltaTList, qfSub, qfAbs]
      norm_num
    unfold deltatColumn
    rw [h28]
    rfl

/-- C5 amended: a record with a missing/undefined temperature value does
not fail the run -- whenever the dates are one contiguous daily
sequence, `calc_solar_rad` succeeds (malformed values flow through,
never dropped); the run only fails (pandas ValueError) when the hourly
index built from the first and last dates disagrees in length with the
24-per-day columns, i.e. when the date sequence itself is gapped or
disordered. -/
theorem C5_gap_fatal_malformed_values_not :
    (∀ (lon_dd lat_dd alt : ℚ) (d0 : ClimateRecord)
        (rest : List ClimateRecord),
      (24 * (((d0 :: rest).getLast (List.cons_ne_nil d0 rest)).day - d0.day)
          + 24).toNat ≠ 24 * (d0 :: rest).length →
      calc_solar_rad lon_dd lat_dd alt (d0 :: rest) = none) ∧
    (∀ (lon_dd lat_dd alt : ℚ) (d0 : ClimateRecord)
        (rest : List ClimateRecord),
      ((d0 :: rest).getLast (List.cons_ne_nil d0 rest)).day
          = d0.day + (rest.length : ℤ) →
      (calc_solar_rad lon_dd lat_dd alt (d0 :: rest)).isSome = true) := by
  constructor
  · intro lon_dd lat_dd alt d0 rest hmis
    have hne' := List.cons_ne_nil d0 rest
    have hlen : (hourlyIndex ((d0 :: rest).head hne').day
        ((d0 :: rest).getLast hne').day).length
        = (24 * (((d0 :: rest).getLast (List.cons_ne_nil d0 rest)).day
            - d0.day) + 24).toNat := by
      rw [List.head_cons]
      unfold hourlyIndex
      rw [List.length_map, List.length_range]
    have hg : ¬((hourlyIndex ((d0 :: rest).head hne').day
        ((d0 :: rest).getLast hne').day).length
        = (solarRadColumn lon_dd lat_dd alt (d0 :: rest)).length) := by
      rw [hlen, solarRadColumn_length]
      exact hmis
    unfold calc_solar_rad
    rw [dif_neg hne']
    dsimp only
    rw [if_neg hg]
  · intro lon_dd lat_dd alt d0 rest hlast
    rw [calc_solar_rad_cons lon_dd lat_dd alt d0 rest hlast]
    rfl

/-- Witness for the amended C5: a gapped two-day series (days 0 and 2)
fails the run, while a contiguous series with an undefined temperature
succeeds. -/
theorem C5_gap_fatal_malformed_values_not_witness :
    calc_solar_rad 15 45 100
        ([⟨0, 1, some 1, some 0, some 0⟩, ⟨2, 3, some 1, some 0, some 0⟩] :
          List ClimateRecord) = none ∧
      (calc_solar_rad 15 45 100
          ([⟨0, 1, none, some (-5), some 0⟩, ⟨1, 2, some 3, some (-5), some 0⟩] :
            List ClimateRecord)).isSome = true :=
  ⟨C5_gap_fatal_malformed_values_not.1 15 45 100 ⟨0, 1, some 1, some 0, some 0⟩
      [⟨2, 3, some 1, some 0, some 0⟩] (by decide),
    C5_gap_fatal_malformed_values_not.2 15 45 100 ⟨0, 1, none, some (-5), some 0⟩
      [⟨1, 2, some 3, some (-5), some 0⟩] (by decide)⟩

/-- C10: on an empty input climate table, `calc_solar_rad` raises
(modelled `none`, the IndexError from `climate_data.index[0]` at
line 341) instead of returning an empty hourly table. -/
theorem C10_empty_input_error (lon_dd lat_dd alt : ℚ) :
    calc_solar_rad lon_dd lat_dd alt [] = none := by
  unfold calc_solar_rad
  rw [dif_pos rfl]

/-! ### C7: NaN-faithful sunrise/noon/sunset ordering -/

/-- NaN-aware non-strict order (every IEEE comparison against NaN is
false), used to state `sunrise ≤ solar noon ≤ sunset` faithfully over
possibly-NaN values. -/
def nrLe : NR → NR → Prop
  | some x, some y => x ≤ y
  | _, _ => False

lemma nrLe_some_some (a b : ℝ) : nrLe (some a) (some b) = (a ≤ b) := rfl

lemma nrLe_none_left (a : NR) : nrLe none a = False := by cases a <;> rfl

lemma signR_mul_fifteen_ne_zero (lon_dd : ℝ) (hlon : lon_dd ≠ 0) :
    signR lon_dd * 15 ≠ 0 := by
  unfold signR
  rcases hlon.lt_or_lt with h | h
  · rw [if_neg (not_lt.mpr h.le), if_pos h]
    norm_num
  · rw [if_pos h]
    norm_num

/-- On nonzero longitude the NaN-aware longitudinal correction is the
defined real value of the pure `calc_long_corr`: the pure version is the
restriction of the program to its non-NaN domain. -/
lemma calc_long_corrNR_eq_pure (lon_dd : ℝ) (hlon : lon_dd ≠ 0) :
    calc_long_corrNR lon_dd = some (calc_long_corr lon_dd) := by
  simp only [calc_long_corrNR, pymodNR_some_some,
    if_neg (signR_mul_fifteen_ne_zero lon_dd hlon),
    nrSub_some_some, nrMul_some_some, calc_long_corr]

/-- On nonzero longitude the NaN-aware solar noon is the defined real
value of the pure `solarnoonR`. -/
lemma solarnoonNR_eq_pure (lon_dd : ℝ) (d : ℕ) (hlon : lon_dd ≠ 0) :
    solarnoonNR lon_dd d = some (solarnoonR lon_dd d) := by
  simp only [solarnoonNR, calc_long_corrNR_eq_pure lon_dd hlon,
    nrSub_some_some, solarnoonR]

lemma solarnoonNR_zero (d : ℕ) : solarnoonNR 0 d = none := by
  have hsign : signR (0:ℝ) = 0 := by
    unfold signR
    norm_num
  have hlc : calc_long_corrNR 0 = none := by
    simp only [calc_long_corrNR, hsign, zero_mul, pymodNR_some_some]
    simp only [if_true, eq_self_iff_true, nrSub_none_right, nrSub_none_left,
      nrMul_none_left]
  simp only [solarnoonNR, hlc, nrSub_none_right, nrSub_none_left]

lemma solarnoonNR_fifteen (d : ℕ) :
    solarnoonNR 15 d = some (12 - calc_eqn_of_time d) := by
  have h15 : signR (15 : ℝ) = 1 := by
    unfold signR
    rw [if_pos (by norm_num : (0:ℝ) < 15)]
  have hmod : pymodNR (some (15:ℝ)) (some (signR 15 * 15)) = some 0 := by
    rw [h15, one_mul, pymodNR_some_some, if_neg (by norm_num : (15:ℝ) ≠ 0)]
    unfold pymod
    rw [show (15:ℝ)/15 = 1 by norm_num, Int.floor_one]
    norm_num
  have hlc : calc_long_corrNR 15 = some 0 := by
    simp only [calc_long_corrNR, hmod, nrSub_some_some, nrMul_some_some]
    norm_num
  simp only [solarnoonNR, hlc, nrSub_some_some]
  norm_num

lemma halfdayArg_lat_zero (d : ℕ) :
    nrDiv (some (Real.cos (90 * Real.pi / 180) -
        Real.sin (radiansR 0) * Real.sin (calc_solar_declination d)))
      (some (Real.cos (radiansR 0) * Real.cos (calc_solar_declination d)))
      = some 0 := by
  have hr0 : radiansR 0 = 0 := by
    unfold radiansR
    ring
  have hcos := cos_calc_solar_declination_pos d
  rw [hr0]
  rw [show Real.cos (90 * Real.pi / 180) -
        Real.sin 0 * Real.sin (calc_solar_declination d) = 0 by
      rw [show (90:ℝ) * Real.pi / 180 = Real.pi / 2 by ring,
        Real.cos_pi_div_two, Real.sin_zero]
      ring]
  rw [show Real.cos 0 * Real.cos (calc_solar_declination d)
        = Real.cos (calc_solar_declination d) by
      rw [Real.cos_zero, one_mul]]
  rw [nrDiv_some_some, if_neg hcos.ne', zero_div]

lemma halfdaylengthNR_lat_zero (d : ℕ) :
    halfdaylengthNR (calc_solar_declination d) (radiansR 0) = some 6 := by
  simp only [halfdaylengthNR]
  rw [halfdayArg_lat_zero d]
  have harc : nrArccos (some (0:ℝ)) = some (Real.pi / 2) := by
    simp only [nrArccos]
    rw [if_pos (by norm_num : -1 ≤ (0:ℝ) ∧ (0:ℝ) ≤ 1), Real.arccos_zero]
  rw [harc, nrMul_some_some, nrDiv_some_some,
    if_neg (by norm_num : (15:ℝ) ≠ 0)]
  congr 1
  field_simp
  ring

/-- A defined half-day length is non-negative: when `halfdaylengthNR`
returns a real value, that value came through the in-range arccos
branch, and arccos is non-negative. -/
lemma halfdaylengthNR_nonneg (solar_dec lat_rad hd : ℝ)
    (h : halfdaylengthNR solar_dec lat_rad = some hd) : 0 ≤ hd := by
  simp only [halfdaylengthNR, nrDiv_some_some] at h
  split_ifs at h with hB
  · rw [nrArccos_none, nrMul_none_left, nrDiv_none_left] at h
    exact absurd h (by simp)
  · simp only [nrArccos] at h
    split_ifs at h with hq
    · rw [nrMul_some_some, nrDiv_some_some,
        if_neg (by norm_num : (15:ℝ) ≠ 0)] at h
      injection h with h
      rw [← h]
      exact div_nonneg (mul_nonneg (Real.arccos_nonneg _)
        (div_nonneg (by norm_num) Real.pi_pos.le)) (by norm_num)
    · rw [nrMul_none_left, nrDiv_none_left] at h
      exact absurd h (by simp)

/-- C7 counterexample: at longitude 0 (latitude 0, day 1) the
half-day-length arccos argument is defined and equals 0, inside
`[-1, 1]`, and the half-day length itself is a defined 6 hours; yet the
program's sunrise, solar noon and sunset are all NaN there (the
zero-longitude modulus of `calc_long_corr`), so the claimed
`sunrise ≤ solar noon` is false under IEEE NaN comparison. -/
theorem C7_zero_longitude_counterexample :
    nrDiv (some (Real.cos (90 * Real.pi / 180) -
        Real.sin (radiansR 0) * Real.sin (calc_solar_declination 1)))
      (some (Real.cos (radiansR 0) * Real.cos (calc_solar_declination 1)))
      = some 0 ∧
      (-1 ≤ (0:ℝ) ∧ (0:ℝ) ≤ 1) ∧
      halfdaylengthNR (calc_solar_declination 1) (radiansR 0) = some 6 ∧
      sunriseNR 0 (radiansR 0) 1 = none ∧
      solarnoonNR 0 1 = none ∧
      sunsetNR 0 (radiansR 0) 1 = none ∧
      ¬nrLe (sunriseNR 0 (radiansR 0) 1) (solarnoonNR 0 1) := by
  have hnoon := solarnoonNR_zero 1
  have hsr : sunriseNR 0 (radiansR 0) 1 = none := by
    simp only [sunriseNR, hnoon, nrSub_none_left]
  refine ⟨halfdayArg_lat_zero 1, by norm_num, halfdaylengthNR_lat_zero 1,
    hsr, hnoon, ?_, ?_⟩
  · simp only [sunsetNR, hnoon, nrAdd_none_left]
  · rw [hsr, hnoon]
    exact not_false

/-- C7 amended: whenever the half-day length is defined (its arccos
argument is defined -- nonzero denominator -- and lies in `[-1, 1]`)
AND solar noon is defined (nonzero longitude; at longitude 0 it is NaN,
see `C9_zero_longitude_degrades`), sunrise and sunset are the defined
values `noon - halfday` and `noon + halfday`, the half-day length is
non-negative, and sunrise ≤ solar noon ≤ sunset. -/
theorem C7_sunrise_noon_sunset_amended (lon_dd lat_rad : ℝ)
    (dayofyear : ℕ) (hd sn : ℝ)
    (hhalf : halfdaylengthNR (calc_solar_declination dayofyear) lat_rad
      = some hd)
    (hnoon : solarnoonNR lon_dd dayofyear = some sn) :
    0 ≤ hd ∧
      sunriseNR lon_dd lat_rad dayofyear = some (sn - hd) ∧
      sunsetNR lon_dd lat_rad dayofyear = some (sn + hd) ∧
      nrLe (sunriseNR lon_dd lat_rad dayofyear)
        (solarnoonNR lon_dd dayofyear) ∧
      nrLe (solarnoonNR lon_dd dayofyear)
        (sunsetNR lon_dd lat_rad dayofyear) := by
  have h0 := halfdaylengthNR_nonneg _ _ _ hhalf
  have hsr : sunriseNR lon_dd lat_rad dayofyear = some (sn - hd) := by
    simp only [sunriseNR, hnoon, hhalf, nrSub_some_some]
  have hss : sunsetNR lon_dd lat_rad dayofyear = some (sn + hd) := by
    simp only [sunsetNR, hnoon, hhalf, nrAdd_some_some]
  refine ⟨h0, hsr, hss, ?_, ?_⟩
  · rw [hsr, hnoon, nrLe_some_some]
    linarith
  · rw [hss, hnoon, nrLe_some_some]
    linarith

/-- Witness for the amended C7 at longitude 15, latitude 0, day 1: the
half-day length evaluates to the defined 6 hours and solar noon to the
defined `12 - ET(1)`. -/
theorem C7_sunrise_noon_sunset_amended_witness :
    0 ≤ (6:ℝ) ∧
      sunriseNR 15 (radiansR 0) 1 = some ((12 - calc_eqn_of_time 1) - 6) ∧
      sunsetNR 15 (radiansR 0) 1 = some ((12 - calc_eqn_of_time 1) + 6) ∧
      nrLe (sunriseNR 15 (radiansR 0) 1) (solarnoonNR 15 1) ∧
      nrLe (solarnoonNR 15 1) (sunsetNR 15 (radiansR 0) 1) :=
  C7_sunrise_noon_sunset_amended 15 (radiansR 0) 1 6 (12 - calc_eqn_of_time 1)
    (halfdaylengthNR_lat_zero 1) (solarnoonNR_fifteen 1)
